import Mathlib

/-!
Verification of the portage-action image-mirroring action (src/index.js).

The JavaScript source is shallowly embedded: the container engine
(`@actions/exec` calls to `docker`) is modelled as an oracle `Engine`
mapping a command and argument list to either success or an error
message (a thrown exception's `.message`); file reading and JSON
parsing are likewise oracles in `ActionEnv`.  The control flow of
`run` and `getImageInfo` is translated match-for-match from the
source, with JavaScript mutable loop state passed explicitly.
-/

namespace Portage

/-- One image mapping element of the parsed `images` input.  JavaScript
property access `image.source` on a missing property yields a falsy
value; a missing or empty field is modelled as the empty string, which
is exactly what the validation check `!image.source` rejects. -/
structure ImageDescriptor where
  source : String
  destination : String
  architecture : String
deriving DecidableEq, Repr

/-- Result of a parsed JSON input: either an array of elements or a
single non-array value (which the source coerces to a singleton list,
`if (!Array.isArray(images)) images = [images]`). -/
inductive JsonValue where
  | arr : List ImageDescriptor → JsonValue
  | single : ImageDescriptor → JsonValue
deriving DecidableEq, Repr

/-- The part of `@actions/exec`'s `getExecOutput` result the source
uses: the captured standard output. -/
structure ExecOutput where
  stdout : String
deriving DecidableEq, Repr

/-- Oracle for the external container engine.  `exec cmd args` models
`await exec.exec(cmd, args)`: `.ok ()` for a zero exit code, `.error m`
for a thrown error with message `m`.  `getExecOutput` models
`await exec.getExecOutput(cmd, args)` the same way, returning captured
stdout on success. -/
structure Engine where
  exec : String → List String → Except String Unit
  getExecOutput : String → List String → Except String ExecOutput

/-- Oracle environment for the action: the two input channels as
`core.getInput` returns them (empty string when unset), `fs.readFileSync`
and `JSON.parse` as fallible oracles, and the container engine. -/
structure ActionEnv where
  imagesInput : String
  imagesFileInput : String
  readFile : String → Except String String
  parseJson : String → Except String JsonValue
  engine : Engine

/-- Outcome record pushed onto `results` for one image.  `error` is
`some msg` exactly when the source adds the `error` property (the
failed branch). -/
structure ImageOutcome where
  source : String
  destination : String
  digest : String
  size : String
  status : String
  error : Option String
deriving DecidableEq, Repr

/-- Argument list for `docker inspect --format=\x7b\x7bindex .RepoDigests 0\x7d\x7d <image>`
(the digest query of `getImageInfo`). -/
def digestInspectArgs (image : String) : List String :=
  ["inspect", "--format=\x7b\x7bindex .RepoDigests 0\x7d\x7d", image]

/-- Argument list for `docker inspect --format=\x7b\x7b.Size\x7d\x7d <image>`
(the size query of `getImageInfo`). -/
def sizeInspectArgs (image : String) : List String :=
  ["inspect", "--format=\x7b\x7b.Size\x7d\x7d", image]

/-- Whitespace characters stripped by JavaScript's
`String.prototype.trim`: space, tab, line feed, vertical tab, form
feed, carriage return, no-break space and the BOM. -/
def jsWhitespace (c : Char) : Bool :=
  c.val = 32 || c.val = 9 || c.val = 10 || c.val = 11 || c.val = 12
    || c.val = 13 || c.val = 160 || c.val = 65279

/-- JavaScript's `String.prototype.trim`: strip leading and trailing
whitespace. -/
def jsTrim (s : String) : String :=
  String.mk (((s.data.dropWhile jsWhitespace).reverse.dropWhile jsWhitespace).reverse)

/-- `getImageInfo(image)` from the source: `digest` and `size` start
empty; one `try` block runs the digest query, assigns `digest`, then
runs the size query and assigns `size`; the single `catch` logs a
warning and keeps whatever was assigned before the failure.  Returns
the pair `(digest, size)`. -/
def getImageInfo (eng : Engine) (image : String) : String × String :=
  match eng.getExecOutput "docker" (digestInspectArgs image) with
  | .error _ => ("", "")
  | .ok digestOutput =>
    let digest := jsTrim digestOutput.stdout
    match eng.getExecOutput "docker" (sizeInspectArgs image) with
    | .error _ => (digest, "")
    | .ok sizeOutput => (digest, jsTrim sizeOutput.stdout)

/-- The engine invocations `getImageInfo` actually issues, in order,
following the same control flow: after a digest-query failure the
`catch` is entered and the size query is never reached. -/
def getImageInfoCalls (eng : Engine) (image : String) : List (List String) :=
  match eng.getExecOutput "docker" (digestInspectArgs image) with
  | .error _ => [digestInspectArgs image]
  | .ok _ => [digestInspectArgs image, sizeInspectArgs image]

/-- The pull argument list: `['pull']`, then `'--platform', architecture`
when `architecture` is truthy (non-empty), then the source reference. -/
def pullArgsOf (img : ImageDescriptor) : List String :=
  (if img.architecture ≠ "" then ["pull", "--platform", img.architecture]
   else ["pull"]) ++ [img.source]

/-- The tag argument list `['tag', sourceImage, destinationImage]`. -/
def tagArgsOf (img : ImageDescriptor) : List String :=
  ["tag", img.source, img.destination]

/-- The push argument list `['push', destinationImage]`. -/
def pushArgsOf (img : ImageDescriptor) : List String :=
  ["push", img.destination]

/-- The body of the per-image `try` block: pull, tag, push in order,
each aborting with the thrown message on failure, then the best-effort
inspect.  Success carries the `(digest, size)` pair used to build the
success outcome. -/
def mirrorImage (eng : Engine) (img : ImageDescriptor) : Except String (String × String) :=
  match eng.exec "docker" (pullArgsOf img) with
  | .error msg => .error msg
  | .ok _ =>
    match eng.exec "docker" (tagArgsOf img) with
    | .error msg => .error msg
    | .ok _ =>
      match eng.exec "docker" (pushArgsOf img) with
      | .error msg => .error msg
      | .ok _ => .ok (getImageInfo eng img.destination)

/-- The engine invocations one loop iteration issues, in order: a step
that throws ends the `try` block, so later steps never run. -/
def mirrorCalls (eng : Engine) (img : ImageDescriptor) : List (List String) :=
  match eng.exec "docker" (pullArgsOf img) with
  | .error _ => [pullArgsOf img]
  | .ok _ =>
    match eng.exec "docker" (tagArgsOf img) with
    | .error _ => [pullArgsOf img, tagArgsOf img]
    | .ok _ =>
      match eng.exec "docker" (pushArgsOf img) with
      | .error _ => [pullArgsOf img, tagArgsOf img, pushArgsOf img]
      | .ok _ =>
        [pullArgsOf img, tagArgsOf img, pushArgsOf img]
          ++ getImageInfoCalls eng img.destination

/-- The record pushed in the success branch of the loop body. -/
def successOutcome (img : ImageDescriptor) (digest size : String) : ImageOutcome :=
  { source := img.source, destination := img.destination,
    digest := digest, size := size, status := "success", error := none }

/-- The record pushed in the `catch (imageError)` branch of the loop body. -/
def failedOutcome (img : ImageDescriptor) (msg : String) : ImageOutcome :=
  { source := img.source, destination := img.destination,
    digest := "", size := "", status := "failed", error := some msg }

/-- The outcome one loop iteration records for `img`. -/
def outcomeOf (eng : Engine) (img : ImageDescriptor) : ImageOutcome :=
  match mirrorImage eng img with
  | .ok (digest, size) => successOutcome img digest size
  | .error msg => failedOutcome img msg

/-- The `for (let i = 0; ...)` loop over images: the mutable
`results` array and `successCount` counter are the explicit
accumulator `acc`.  Every iteration appends exactly one outcome;
the counter increments only in the success branch. -/
def runBatch (eng : Engine) :
    List ImageDescriptor → List ImageOutcome × Nat → List ImageOutcome × Nat
  | [], acc => acc
  | img :: rest, acc =>
    match mirrorImage eng img with
    | .ok (digest, size) =>
      runBatch eng rest (acc.1 ++ [successOutcome img digest size], acc.2 + 1)
    | .error msg =>
      runBatch eng rest (acc.1 ++ [failedOutcome img msg], acc.2)

/-- The field-validation loop (`for (const image of images)`): the
first element with a falsy `source`, `destination` or `architecture`
throws; otherwise validation passes. -/
def validateImages : List ImageDescriptor → Except String Unit
  | [] => .ok ()
  | img :: rest =>
    if img.source = "" ∨ img.destination = "" ∨ img.architecture = "" then
      .error "Each image mapping must have \"source\", \"destination\", and \"architecture\" properties"
    else validateImages rest

/-- Coercion applied after `JSON.parse`: a non-array value becomes a
singleton list (`if (!Array.isArray(images)) images = [images]`). -/
def toImageList : JsonValue → List ImageDescriptor
  | .arr xs => xs
  | .single x => [x]

/-- The inner parse `try` block of `run`: parse the inline input when
set, otherwise read and parse the named file.  Any failure inside the
block (read or parse) is rethrown as the channel-naming
`Invalid images format in ...` error. -/
def parseImages (env : ActionEnv) : Except String (List ImageDescriptor) :=
  if env.imagesInput ≠ "" then
    match env.parseJson env.imagesInput with
    | .ok v => .ok (toImageList v)
    | .error e =>
      .error ("Invalid images format in images input. Expected JSON array or object: " ++ e)
  else
    match env.readFile env.imagesFileInput with
    | .error e =>
      .error ("Invalid images format in images file: " ++ env.imagesFileInput
        ++ ". Expected JSON array or object: " ++ e)
    | .ok content =>
      match env.parseJson content with
      | .ok v => .ok (toImageList v)
      | .error e =>
        .error ("Invalid images format in images file: " ++ env.imagesFileInput
          ++ ". Expected JSON array or object: " ++ e)

/-- A hexadecimal digit character as a string, for `\textbackslash u00XX` escapes. -/
def hexDigit (n : Nat) : String :=
  if n < 10 then toString n
  else if n = 10 then "a" else if n = 11 then "b" else if n = 12 then "c"
  else if n = 13 then "d" else if n = 14 then "e" else "f"

/-- `JSON.stringify` escaping of one character inside a string literal. -/
def jsonEscapeChar (c : Char) : String :=
  if c.val = 34 then "\\\""
  else if c.val = 92 then "\\\\"
  else if c.val = 8 then "\\b"
  else if c.val = 9 then "\\t"
  else if c.val = 10 then "\\n"
  else if c.val = 12 then "\\f"
  else if c.val = 13 then "\\r"
  else if c.val < 32 then "\\u00" ++ hexDigit (c.val / 16).toNat ++ hexDigit (c.val % 16).toNat
  else String.singleton c

/-- `JSON.stringify` of a string value. -/
def jsonString (s : String) : String :=
  "\"" ++ String.join (s.toList.map jsonEscapeChar) ++ "\""

/-- `JSON.stringify` of one outcome record: keys in insertion order,
the `error` key present only on the failed branch. -/
def stringifyOutcome (o : ImageOutcome) : String :=
  "\x7b\"source\":" ++ jsonString o.source
    ++ ",\"destination\":" ++ jsonString o.destination
    ++ ",\"digest\":" ++ jsonString o.digest
    ++ ",\"size\":" ++ jsonString o.size
    ++ ",\"status\":" ++ jsonString o.status
    ++ (match o.error with
        | none => ""
        | some e => ",\"error\":" ++ jsonString e)
    ++ "\x7d"

/-- `JSON.stringify(results)` for the outcome array. -/
def stringifyResults (rs : List ImageOutcome) : String :=
  "[" ++ String.intercalate "," (rs.map stringifyOutcome) ++ "]"

/-- Observable result of one `run()`: either the outer `catch` fired
(`core.setFailed` with the `Action failed with error: ...` message,
before any output was written), or the batch completed and the three
outputs were written, with `failed` holding the `core.setFailed`
message of the shortfall branch when `successCount` fell short. -/
inductive RunResult where
  | configError (message : String)
  | completed (results : List ImageOutcome) (successCount totalCount : Nat)
      (failed : Option String)
deriving DecidableEq, Repr

/-- Lines 97-106 of the source: write the three outputs, then flag the
run failed exactly when `successCount !== images.length`. -/
def report (eng : Engine) (images : List ImageDescriptor) : RunResult :=
  let st := runBatch eng images ([], 0)
  if st.2 = images.length then
    .completed st.1 st.2 images.length none
  else
    .completed st.1 st.2 images.length
      (some ("Failed to sync " ++ toString (images.length - st.2)
        ++ " out of " ++ toString images.length ++ " image(s)"))

/-- `run()` from the source: channel checks, parse, validate, batch
loop, reporting.  Every `throw` reaching the outer `catch` becomes
`.configError` with the `Action failed with error: ` prefix of the
outer `core.setFailed` call. -/
def run (env : ActionEnv) : RunResult :=
  if env.imagesInput = "" ∧ env.imagesFileInput = "" then
    .configError "Action failed with error: Either \"images\" or \"images-file\" input must be provided"
  else if env.imagesInput ≠ "" ∧ env.imagesFileInput ≠ "" then
    .configError "Action failed with error: Only one of \"images\" or \"images-file\" inputs should be provided, not both"
  else
    match parseImages env with
    | .error msg => .configError ("Action failed with error: " ++ msg)
    | .ok images =>
      match validateImages images with
      | .error msg => .configError ("Action failed with error: " ++ msg)
      | .ok _ => report env.engine images

/-- The `core.setOutput` pairs a run writes: none on a configuration
error (the throw precedes every `setOutput`), the three documented
outputs otherwise. -/
def runOutputs : RunResult → List (String × String)
  | .configError _ => []
  | .completed results successCount totalCount _ =>
    [("results", stringifyResults results),
     ("success-count", toString successCount),
     ("total-count", toString totalCount)]

/-! ### Concrete descriptors, engines and environments used as witnesses -/

/-- A well-formed descriptor. -/
def imgA : ImageDescriptor :=
  { source := "a:1", destination := "b:1", architecture := "linux/amd64" }

/-- A second well-formed descriptor. -/
def imgB : ImageDescriptor :=
  { source := "x:1", destination := "y:1", architecture := "linux/arm64" }

/-- An engine on which every call succeeds; the inspect queries for
destination `b:1` return digest `sha256:abc` and size `42`. -/
def engAllOk : Engine where
  exec := fun _ _ => .ok ()
  getExecOutput := fun _ args =>
    if args = sizeInspectArgs "b:1" then .ok { stdout := "42" }
    else .ok { stdout := "sha256:abc" }

/-- An engine on which pull/tag/push succeed, the digest inspect of
`b:1` fails, and the size inspect of `b:1` would succeed with `42`. -/
def engDigestFails : Engine where
  exec := fun _ _ => .ok ()
  getExecOutput := fun _ args =>
    if args = digestInspectArgs "b:1" then .error "digest boom"
    else .ok { stdout := "42" }

/-- An engine on which pull/tag/push succeed and the digest inspect of
`b:1` succeeds with `sha256:abc`, but the size inspect of `b:1` fails. -/
def engSizeFails : Engine where
  exec := fun _ _ => .ok ()
  getExecOutput := fun _ args =>
    if args = sizeInspectArgs "b:1" then .error "size boom"
    else .ok { stdout := "sha256:abc" }

/-- An engine on which the pull of `imgA` fails and everything else
succeeds. -/
def engPullFails : Engine where
  exec := fun _ args =>
    if args = pullArgsOf imgA then .error "pull boom" else .ok ()
  getExecOutput := fun _ _ => .ok { stdout := "42" }

/-- An engine on which the tag of `imgA` fails and everything else
succeeds. -/
def engTagFails : Engine where
  exec := fun _ args =>
    if args = tagArgsOf imgA then .error "tag boom" else .ok ()
  getExecOutput := fun _ _ => .ok { stdout := "42" }

/-- An engine on which the push of `imgA` fails and everything else
succeeds. -/
def engPushFails : Engine where
  exec := fun _ args =>
    if args = pushArgsOf imgA then .error "push boom" else .ok ()
  getExecOutput := fun _ _ => .ok { stdout := "42" }

/-- An engine on which only the pull of `imgB` fails; inspect queries
for `b:1` answer as in `engAllOk`. -/
def engSecondPullFails : Engine where
  exec := fun _ args =>
    if args = pullArgsOf imgB then .error "pull denied" else .ok ()
  getExecOutput := fun _ args =>
    if args = sizeInspectArgs "b:1" then .ok { stdout := "42" }
    else .ok { stdout := "sha256:abc" }

/-- Environment whose inline input parses to the single descriptor
`imgA`, mirrored on the all-succeeding engine. -/
def envOneOk : ActionEnv where
  imagesInput := "[x]"
  imagesFileInput := ""
  readFile := fun _ => .error "ENOENT"
  parseJson := fun _ => .ok (.arr [imgA])
  engine := engAllOk

/-- Environment whose inline input parses to `[imgA, imgB]` on the
engine where the second pull fails. -/
def envTwoImages : ActionEnv where
  imagesInput := "[two]"
  imagesFileInput := ""
  readFile := fun _ => .error "ENOENT"
  parseJson := fun _ => .ok (.arr [imgA, imgB])
  engine := engSecondPullFails

/-- Environment whose inline input parses to a single element with an
empty `architecture`. -/
def envBadField : ActionEnv where
  imagesInput := "[bad]"
  imagesFileInput := ""
  readFile := fun _ => .error "ENOENT"
  parseJson := fun _ =>
    .ok (.arr [{ source := "a:1", destination := "b:1", architecture := "" }])
  engine := engAllOk

/-- Environment with neither input channel supplied. -/
def envNoChannel : ActionEnv where
  imagesInput := ""
  imagesFileInput := ""
  readFile := fun _ => .error "ENOENT"
  parseJson := fun _ => .ok (.arr [imgA])
  engine := engAllOk

/-- Environment with both input channels supplied. -/
def envBothChannels : ActionEnv where
  imagesInput := "[x]"
  imagesFileInput := "images.json"
  readFile := fun _ => .ok "[x]"
  parseJson := fun _ => .ok (.arr [imgA])
  engine := engAllOk

/-- Environment whose inline input parses to the empty array. -/
def envEmptyList : ActionEnv where
  imagesInput := "[]"
  imagesFileInput := ""
  readFile := fun _ => .error "ENOENT"
  parseJson := fun _ => .ok (.arr [])
  engine := engAllOk

/-! ### Structural lemmas about the batch loop and the reporter -/

lemma validateImages_error_of_bad (images : List ImageDescriptor)
    (h : ∃ img ∈ images,
      img.source = "" ∨ img.destination = "" ∨ img.architecture = "") :
    validateImages images =
      .error "Each image mapping must have \"source\", \"destination\", and \"architecture\" properties" := by
  induction images with
  | nil => rcases h with ⟨img, hmem, _⟩; cases hmem
  | cons x rest ih =>
    rw [validateImages]
    split
    · rfl
    · rename_i hgood
      apply ih
      rcases h with ⟨img, hmem, hbad⟩
      rcases List.mem_cons.mp hmem with rfl | hmem
      · exact absurd hbad hgood
      · exact ⟨img, hmem, hbad⟩

lemma validateImages_arch_nonempty (images : List ImageDescriptor)
    (hv : validateImages images = .ok ()) :
    ∀ img ∈ images, img.architecture ≠ "" := by
  induction images with
  | nil => intro img hmem; cases hmem
  | cons x rest ih =>
    rw [validateImages] at hv
    split at hv
    · cases hv
    · rename_i hgood
      intro img hmem
      rcases List.mem_cons.mp hmem with rfl | hmem
      · intro harch
        exact hgood (Or.inr (Or.inr harch))
      · exact ih hv img hmem

lemma runBatch_spec (eng : Engine) (imgs : List ImageDescriptor) :
    ∀ acc : List ImageOutcome × Nat,
      runBatch eng imgs acc =
        (acc.1 ++ imgs.map (outcomeOf eng),
         acc.2 + ((imgs.map (outcomeOf eng)).filter
           (fun o => o.status == "success")).length) := by
  induction imgs with
  | nil => intro acc; simp [runBatch]
  | cons img rest ih =>
    intro acc
    rcases h : mirrorImage eng img with msg | ⟨d, s⟩
    · simp only [runBatch, h, ih, List.map_cons, outcomeOf]
      simp [failedOutcome]
    · simp only [runBatch, h, ih, List.map_cons, outcomeOf]
      simp [successOutcome]
      omega

lemma report_inv (eng : Engine) (images : List ImageDescriptor)
    (rs : List ImageOutcome) (sc tc : Nat) (f : Option String)
    (h : report eng images = .completed rs sc tc f) :
    rs = (runBatch eng images ([], 0)).1 ∧
    sc = (runBatch eng images ([], 0)).2 ∧
    tc = images.length ∧
    ((sc = tc ∧ f = none) ∨
     (sc ≠ tc ∧ f = some ("Failed to sync " ++ toString (tc - sc)
        ++ " out of " ++ toString tc ++ " image(s)"))) := by
  simp only [report] at h
  split at h
  · rcases h with ⟨rfl, rfl, rfl, rfl⟩
    refine ⟨rfl, rfl, rfl, Or.inl ⟨?_, rfl⟩⟩
    assumption
  · rcases h with ⟨rfl, rfl, rfl, rfl⟩
    refine ⟨rfl, rfl, rfl, Or.inr ⟨?_, rfl⟩⟩
    assumption

lemma run_completed_report (env : ActionEnv) (rs : List ImageOutcome)
    (sc tc : Nat) (f : Option String) (h : run env = .completed rs sc tc f) :
    ∃ images : List ImageDescriptor,
      parseImages env = .ok images ∧ validateImages images = .ok () ∧
      report env.engine images = .completed rs sc tc f := by
  unfold run at h
  split at h
  · simp at h
  split at h
  · simp at h
  split at h
  · simp at h
  rename_i images hparse
  split at h
  · simp at h
  rename_i u hval
  exact ⟨images, hparse, by rw [hval], h⟩

/-! ### Claims -/

/-- C1 counterexample: on an engine where the digest inspect of `b:1`
fails while the size inspect of `b:1` would succeed with stdout `42`,
the shared try block aborts at the digest query: the size query is
never issued and the returned size is empty rather than `42`, so a
digest failure does prevent the size query from being attempted. -/
theorem c1_counterexample :
    engDigestFails.getExecOutput "docker" (digestInspectArgs "b:1") = .error "digest boom" ∧
    engDigestFails.getExecOutput "docker" (sizeInspectArgs "b:1") = .ok { stdout := "42" } ∧
    getImageInfoCalls engDigestFails "b:1" = [digestInspectArgs "b:1"] ∧
    getImageInfo engDigestFails "b:1" = ("", "") :=
  ⟨rfl, rfl, rfl, rfl⟩

/-- C1 (amended): the inspect queries share one error scope.  A
digest-query failure skips the size query entirely, leaving both
fields empty; only the reverse direction is independent: once the
digest query succeeds, the size query is always attempted and the
digest result is unaffected by the size query's outcome. -/
theorem c1_inspect_queries_share_error_scope (eng : Engine) (image : String) :
    (∀ e, eng.getExecOutput "docker" (digestInspectArgs image) = .error e →
       getImageInfo eng image = ("", "") ∧
       getImageInfoCalls eng image = [digestInspectArgs image]) ∧
    (∀ out, eng.getExecOutput "docker" (digestInspectArgs image) = .ok out →
       getImageInfoCalls eng image = [digestInspectArgs image, sizeInspectArgs image] ∧
       (getImageInfo eng image).1 = jsTrim out.stdout) := by
  constructor
  · intro e he
    exact ⟨by simp [getImageInfo, he], by simp [getImageInfoCalls, he]⟩
  · intro out hout
    refine ⟨by simp [getImageInfoCalls, hout], ?_⟩
    cases hs : eng.getExecOutput "docker" (sizeInspectArgs image) with
    | error e => simp [getImageInfo, hout, hs]
    | ok o => simp [getImageInfo, hout, hs]

/-- Witness for the amended C1, at the digest-failing engine and at
the all-succeeding engine. -/
theorem c1_inspect_queries_share_error_scope_witness :
    (getImageInfo engDigestFails "b:1" = ("", "") ∧
     getImageInfoCalls engDigestFails "b:1" = [digestInspectArgs "b:1"]) ∧
    (getImageInfoCalls engAllOk "b:1" = [digestInspectArgs "b:1", sizeInspectArgs "b:1"] ∧
     (getImageInfo engAllOk "b:1").1 = jsTrim "sha256:abc") :=
  ⟨(c1_inspect_queries_share_error_scope engDigestFails "b:1").1 "digest boom" rfl,
   (c1_inspect_queries_share_error_scope engAllOk "b:1").2 { stdout := "sha256:abc" } rfl⟩

/-- C4: if pull, tag or push fails for a descriptor, the pipeline
aborts for it at once: the outcome has status `failed` with the
triggering error message and empty digest and size, and the engine
invocations stop at the failing step (no later step, and no inspect
query, is ever attempted). -/
theorem c4_transfer_failure_aborts (eng : Engine) (img : ImageDescriptor) :
    (∀ msg, eng.exec "docker" (pullArgsOf img) = .error msg →
       outcomeOf eng img =
         { source := img.source, destination := img.destination, digest := "",
           size := "", status := "failed", error := some msg } ∧
       mirrorCalls eng img = [pullArgsOf img]) ∧
    (∀ msg, eng.exec "docker" (pullArgsOf img) = .ok () →
       eng.exec "docker" (tagArgsOf img) = .error msg →
       outcomeOf eng img =
         { source := img.source, destination := img.destination, digest := "",
           size := "", status := "failed", error := some msg } ∧
       mirrorCalls eng img = [pullArgsOf img, tagArgsOf img]) ∧
    (∀ msg, eng.exec "docker" (pullArgsOf img) = .ok () →
       eng.exec "docker" (tagArgsOf img) = .ok () →
       eng.exec "docker" (pushArgsOf img) = .error msg →
       outcomeOf eng img =
         { source := img.source, destination := img.destination, digest := "",
           size := "", status := "failed", error := some msg } ∧
       mirrorCalls eng img = [pullArgsOf img, tagArgsOf img, pushArgsOf img]) := by
  refine ⟨fun msg hpull => ?_, fun msg hpull htag => ?_, fun msg hpull htag hpush => ?_⟩
  · exact ⟨by simp [outcomeOf, mirrorImage, hpull, failedOutcome],
           by simp [mirrorCalls, hpull]⟩
  · exact ⟨by simp [outcomeOf, mirrorImage, hpull, htag, failedOutcome],
           by simp [mirrorCalls, hpull, htag]⟩
  · exact ⟨by simp [outcomeOf, mirrorImage, hpull, htag, hpush, failedOutcome],
           by simp [mirrorCalls, hpull, htag, hpush]⟩

/-- Witness for C4: the three failing engines each produce the failed
outcome and stop at the failing step. -/
theorem c4_transfer_failure_aborts_witness :
    (outcomeOf engPullFails imgA =
       { source := imgA.source, destination := imgA.destination, digest := "",
         size := "", status := "failed", error := some "pull boom" } ∧
     mirrorCalls engPullFails imgA = [pullArgsOf imgA]) ∧
    (outcomeOf engTagFails imgA =
       { source := imgA.source, destination := imgA.destination, digest := "",
         size := "", status := "failed", error := some "tag boom" } ∧
     mirrorCalls engTagFails imgA = [pullArgsOf imgA, tagArgsOf imgA]) ∧
    (outcomeOf engPushFails imgA =
       { source := imgA.source, destination := imgA.destination, digest := "",
         size := "", status := "failed", error := some "push boom" } ∧
     mirrorCalls engPushFails imgA = [pullArgsOf imgA, tagArgsOf imgA, pushArgsOf imgA]) :=
  ⟨(c4_transfer_failure_aborts engPullFails imgA).1 "pull boom" rfl,
   (c4_transfer_failure_aborts engTagFails imgA).2.1 "tag boom" rfl rfl,
   (c4_transfer_failure_aborts engPushFails imgA).2.2 "push boom" rfl rfl rfl⟩

/-- C5 counterexample: on `engSizeFails`, pull, tag and push of `imgA`
all succeed and the inspect step fails (its size query throws), yet
the recorded outcome keeps the already-retrieved digest `sha256:abc`:
the digest field is not left empty as the claim states. -/
theorem c5_counterexample :
    engSizeFails.exec "docker" (pullArgsOf imgA) = .ok () ∧
    engSizeFails.exec "docker" (tagArgsOf imgA) = .ok () ∧
    engSizeFails.exec "docker" (pushArgsOf imgA) = .ok () ∧
    engSizeFails.getExecOutput "docker" (sizeInspectArgs "b:1") = .error "size boom" ∧
    outcomeOf engSizeFails imgA =
      { source := "a:1", destination := "b:1", digest := "sha256:abc",
        size := "", status := "success", error := none } ∧
    ("sha256:abc" : String) ≠ "" :=
  ⟨rfl, rfl, rfl, rfl, rfl, by decide⟩

/-- C5 (amended): for every descriptor whose pull, tag and push all
succeed, an inspect failure is non-fatal: the outcome has status
`success` and no error, and no exception escapes; only the fields not
retrieved before the failure are left empty — a digest-query failure
leaves both digest and size empty, while a size-query failure after a
successful digest query keeps the retrieved digest and leaves only the
size empty. -/
theorem c5_inspect_failure_nonfatal (eng : Engine) (img : ImageDescriptor)
    (hpull : eng.exec "docker" (pullArgsOf img) = .ok ())
    (htag : eng.exec "docker" (tagArgsOf img) = .ok ())
    (hpush : eng.exec "docker" (pushArgsOf img) = .ok ()) :
    (outcomeOf eng img).status = "success" ∧
    (outcomeOf eng img).error = none ∧
    (∀ e, eng.getExecOutput "docker" (digestInspectArgs img.destination) = .error e →
       (outcomeOf eng img).digest = "" ∧ (outcomeOf eng img).size = "") ∧
    (∀ out e, eng.getExecOutput "docker" (digestInspectArgs img.destination) = .ok out →
       eng.getExecOutput "docker" (sizeInspectArgs img.destination) = .error e →
       (outcomeOf eng img).digest = jsTrim out.stdout ∧
       (outcomeOf eng img).size = "") := by
  have hout : outcomeOf eng img =
      successOutcome img (getImageInfo eng img.destination).1
        (getImageInfo eng img.destination).2 := by
    simp [outcomeOf, mirrorImage, hpull, htag, hpush]
  refine ⟨by rw [hout]; rfl, by rw [hout]; rfl, fun e he => ?_, fun out e hd hs => ?_⟩
  · rw [hout]
    simp [successOutcome, getImageInfo, he]
  · rw [hout]
    simp [successOutcome, getImageInfo, hd, hs]

/-- Witness for the amended C5: instantiated at the digest-failing and
size-failing engines. -/
theorem c5_inspect_failure_nonfatal_witness :
    ((outcomeOf engDigestFails imgA).status = "success" ∧
     (outcomeOf engDigestFails imgA).digest = "" ∧
     (outcomeOf engDigestFails imgA).size = "") ∧
    ((outcomeOf engSizeFails imgA).digest = jsTrim "sha256:abc" ∧
     (outcomeOf engSizeFails imgA).size = "") :=
  ⟨⟨(c5_inspect_failure_nonfatal engDigestFails imgA rfl rfl rfl).1,
    (c5_inspect_failure_nonfatal engDigestFails imgA rfl rfl rfl).2.2.1 "digest boom" rfl⟩,
   (c5_inspect_failure_nonfatal engSizeFails imgA rfl rfl rfl).2.2.2
     { stdout := "sha256:abc" } "size boom" rfl rfl⟩

/-- C2: for every descriptor list the batch loop produces exactly one
outcome per descriptor, appended in input order (the outcome list is
the map of the per-image pipeline over the input), so its length
always equals the descriptor list length no matter how many images
fail. -/
theorem c2_one_outcome_per_descriptor (eng : Engine) (images : List ImageDescriptor) :
    (runBatch eng images ([], 0)).1 = images.map (outcomeOf eng) ∧
    (runBatch eng images ([], 0)).1.length = images.length := by
  rw [runBatch_spec]
  simp

/-- C3: whenever a run completes its batch loop, the reported
successCount equals the number of outcome records with status
`success`, the reported totalCount equals the number of outcome
records (one per validated descriptor), and successCount ≤ totalCount. -/
theorem c3_success_and_total_counts (env : ActionEnv) (rs : List ImageOutcome)
    (sc tc : Nat) (f : Option String) (h : run env = .completed rs sc tc f) :
    sc = (rs.filter (fun o => o.status == "success")).length ∧
    tc = rs.length ∧ sc ≤ tc := by
  obtain ⟨images, _, _, hr⟩ := run_completed_report env rs sc tc f h
  obtain ⟨hrs, hsc, htc, _⟩ := report_inv env.engine images rs sc tc f hr
  subst hrs hsc htc
  rw [runBatch_spec]
  refine ⟨by simp, by simp, ?_⟩
  have hle := List.length_filter_le (fun o => o.status == "success")
    (images.map (outcomeOf env.engine))
  simp at hle ⊢
  omega

/-- Witness for C3: the single-descriptor run on the all-succeeding
engine completes with successCount 1 and totalCount 1. -/
theorem c3_success_and_total_counts_witness :
    1 = (([{ source := "a:1", destination := "b:1", digest := "sha256:abc",
             size := "42", status := "success", error := none }] :
           List ImageOutcome).filter (fun o => o.status == "success")).length ∧
    1 = ([{ source := "a:1", destination := "b:1", digest := "sha256:abc",
            size := "42", status := "success", error := none }] :
          List ImageOutcome).length ∧
    1 ≤ 1 :=
  c3_success_and_total_counts envOneOk
    [{ source := "a:1", destination := "b:1", digest := "sha256:abc",
       size := "42", status := "success", error := none }] 1 1 none (by decide)

/-- C6: whenever a run completes its batch loop, it emits the
serialized outcome list and the two counts as outputs; the run is
flagged failed exactly when successCount falls short of totalCount,
and then the failure message is `Failed to sync k out of n image(s)`
for the shortfall `k = totalCount - successCount`, with the per-image
outputs emitted unaltered. -/
theorem c6_reporting (env : ActionEnv) (rs : List ImageOutcome) (sc tc : Nat)
    (f : Option String) (h : run env = .completed rs sc tc f) :
    runOutputs (run env) =
      [("results", stringifyResults rs),
       ("success-count", toString sc),
       ("total-count", toString tc)] ∧
    (f = none ↔ sc = tc) ∧
    (sc ≠ tc → f = some ("Failed to sync " ++ toString (tc - sc)
      ++ " out of " ++ toString tc ++ " image(s)")) := by
  obtain ⟨images, _, _, hr⟩ := run_completed_report env rs sc tc f h
  obtain ⟨_, _, _, hcase⟩ := report_inv env.engine images rs sc tc f hr
  refine ⟨by rw [h]; rfl, ?_, ?_⟩
  · rcases hcase with ⟨heq, hf⟩ | ⟨hne, hf⟩
    · simp [heq, hf]
    · simp [hne, hf]
  · intro hne
    rcases hcase with ⟨heq, _⟩ | ⟨_, hf⟩
    · exact absurd heq hne
    · exact hf

/-- Witness for C6: the two-image run with one pull failure reports
successCount 1 of totalCount 2 and the documented shortfall message. -/
theorem c6_reporting_witness :
    runOutputs (run envTwoImages) =
      [("results", stringifyResults
         [{ source := "a:1", destination := "b:1", digest := "sha256:abc",
            size := "42", status := "success", error := none },
          { source := "x:1", destination := "y:1", digest := "",
            size := "", status := "failed", error := some "pull denied" }]),
       ("success-count", toString 1),
       ("total-count", toString 2)] ∧
    ((some "Failed to sync 1 out of 2 image(s)" : Option String) = none ↔ 1 = 2) ∧
    (1 ≠ 2 → (some "Failed to sync 1 out of 2 image(s)" : Option String) =
      some ("Failed to sync " ++ toString (2 - 1) ++ " out of "
        ++ toString 2 ++ " image(s)")) :=
  c6_reporting envTwoImages
    [{ source := "a:1", destination := "b:1", digest := "sha256:abc",
       size := "42", status := "success", error := none },
     { source := "x:1", destination := "y:1", digest := "",
       size := "", status := "failed", error := some "pull denied" }]
    1 2 (some "Failed to sync 1 out of 2 image(s)") (by decide)

/-- C7: for every descriptor of a list that passed field validation,
the pull invocation always carries the `--platform` qualifier set to
the descriptor's architecture, since validation guarantees the
architecture is non-empty. -/
theorem c7_platform_always_passed (images : List ImageDescriptor)
    (img : ImageDescriptor) (hv : validateImages images = .ok ())
    (hmem : img ∈ images) :
    img.architecture ≠ "" ∧
    pullArgsOf img = ["pull", "--platform", img.architecture, img.source] := by
  have harch := validateImages_arch_nonempty images hv img hmem
  exact ⟨harch, by rw [pullArgsOf, if_pos harch]; rfl⟩

/-- Witness for C7: the singleton list `[imgA]` validates and the pull
arguments carry the platform qualifier. -/
theorem c7_platform_always_passed_witness :
    imgA.architecture ≠ "" ∧
    pullArgsOf imgA = ["pull", "--platform", imgA.architecture, imgA.source] :=
  c7_platform_always_passed [imgA] imgA rfl (List.mem_singleton.mpr rfl)

/-- C8: if the parsed input list contains an element lacking a
non-empty source, destination or architecture, the whole run fails
before any image is processed, with the missing-field error message
and no outputs written. -/
theorem c8_missing_field_fails_run (env : ActionEnv)
    (images : List ImageDescriptor)
    (hc1 : ¬(env.imagesInput = "" ∧ env.imagesFileInput = ""))
    (hc2 : ¬(env.imagesInput ≠ "" ∧ env.imagesFileInput ≠ ""))
    (hp : parseImages env = .ok images)
    (hbad : ∃ img ∈ images,
      img.source = "" ∨ img.destination = "" ∨ img.architecture = "") :
    run env = .configError ("Action failed with error: "
      ++ "Each image mapping must have \"source\", \"destination\", and \"architecture\" properties") ∧
    runOutputs (run env) = [] := by
  have hval := validateImages_error_of_bad images hbad
  have hr : run env = .configError ("Action failed with error: "
      ++ "Each image mapping must have \"source\", \"destination\", and \"architecture\" properties") := by
    unfold run
    rw [if_neg hc1, if_neg hc2, hp]
    simp only [hval]
  exact ⟨hr, by rw [hr]; rfl⟩

/-- Witness for C8: the environment whose single element has an empty
architecture fails with the missing-field error and writes no output. -/
theorem c8_missing_field_fails_run_witness :
    run envBadField = .configError ("Action failed with error: "
      ++ "Each image mapping must have \"source\", \"destination\", and \"architecture\" properties") ∧
    runOutputs (run envBadField) = [] :=
  c8_missing_field_fails_run envBadField
    [{ source := "a:1", destination := "b:1", architecture := "" }]
    (by decide) (by decide) rfl
    ⟨{ source := "a:1", destination := "b:1", architecture := "" },
     List.mem_singleton.mpr rfl, Or.inr (Or.inr rfl)⟩

/-- C9: supplying neither input channel, or both, aborts the run with
the corresponding configuration error before any mirroring begins, and
no outputs are written. -/
theorem c9_channel_config_errors (env : ActionEnv) :
    (env.imagesInput = "" → env.imagesFileInput = "" →
       run env = .configError "Action failed with error: Either \"images\" or \"images-file\" input must be provided" ∧
       runOutputs (run env) = []) ∧
    (env.imagesInput ≠ "" → env.imagesFileInput ≠ "" →
       run env = .configError "Action failed with error: Only one of \"images\" or \"images-file\" inputs should be provided, not both" ∧
       runOutputs (run env) = []) := by
  refine ⟨fun h1 h2 => ?_, fun h1 h2 => ?_⟩
  · have hr : run env = .configError "Action failed with error: Either \"images\" or \"images-file\" input must be provided" := by
      unfold run
      rw [if_pos ⟨h1, h2⟩]
    exact ⟨hr, by rw [hr]; rfl⟩
  · have hr : run env = .configError "Action failed with error: Only one of \"images\" or \"images-file\" inputs should be provided, not both" := by
      unfold run
      rw [if_neg (fun hc => h1 hc.1), if_pos ⟨h1, h2⟩]
    exact ⟨hr, by rw [hr]; rfl⟩

/-- Witness for C9: concrete environments with no channel and with
both channels. -/
theorem c9_channel_config_errors_witness :
    (run envNoChannel = .configError "Action failed with error: Either \"images\" or \"images-file\" input must be provided" ∧
     runOutputs (run envNoChannel) = []) ∧
    (run envBothChannels = .configError "Action failed with error: Only one of \"images\" or \"images-file\" inputs should be provided, not both" ∧
     runOutputs (run envBothChannels) = []) :=
  ⟨(c9_channel_config_errors envNoChannel).1 rfl rfl,
   (c9_channel_config_errors envBothChannels).2 (by decide) (by decide)⟩

/-- C10: an input parsing to the empty array is accepted: the run
completes with no outcomes, outputs `results = "[]"`,
`success-count = "0"` and `total-count = "0"`, and is not flagged
failed. -/
theorem c10_empty_list_vacuous_success (env : ActionEnv)
    (hc1 : ¬(env.imagesInput = "" ∧ env.imagesFileInput = ""))
    (hc2 : ¬(env.imagesInput ≠ "" ∧ env.imagesFileInput ≠ ""))
    (hp : parseImages env = .ok []) :
    run env = .completed [] 0 0 none ∧
    runOutputs (run env) =
      [("results", "[]"), ("success-count", "0"), ("total-count", "0")] := by
  have hr : run env = .completed [] 0 0 none := by
    unfold run
    rw [if_neg hc1, if_neg hc2, hp]
    rfl
  exact ⟨hr, by rw [hr]; rfl⟩

/-- Witness for C10: the environment whose inline input parses to the
empty array. -/
theorem c10_empty_list_vacuous_success_witness :
    run envEmptyList = .completed [] 0 0 none ∧
    runOutputs (run envEmptyList) =
      [("results", "[]"), ("success-count", "0"), ("total-count", "0")] :=
  c10_empty_list_vacuous_success envEmptyList (by decide) (by decide) rfl

end Portage
